import Mathlib

/-!
Verification of the swap execution engine of the AI crypto hedge fund manager
(src/src/services/swap_service/eth_usdc.py, src/src/services/swap_service/usdc_eth.py,
src/src/agents/swap/*.py, src/src/utils/errors.py).

The Python services are embedded shallowly: Python floats are modelled as
rationals, the Web3/RPC side effects as an explicit trace of `Effect`s, and
the environment a call observes (balances, allowance, nonce counters, fee
data, rate-source outcome) as an explicit `Env` record.
-/

namespace CryptoHedge

/-- Block identifier passed to the ledger transaction-count query
`web3.eth.get_transaction_count`; when the Python call omits the argument the
Web3 default `latest` (confirmed-only count) is used, while an explicit
`'pending'` argument selects the pending-inclusive count. -/
inductive BlockId where
  | latest
  | pending
deriving DecidableEq

/-- One command chained into the Universal Router calldata by the
`RouterCodec` chain builder (`wrap_eth`, `v2_swap_exact_in`, `unwrap_weth`),
with the integer amounts the source passes to it. -/
inductive RouterCommand where
  | wrap_eth (amount : ℤ)
  | v2_swap_exact_in (amount_in : ℤ) (min_amount_out : ℤ)
  | unwrap_weth (min_amount : ℤ)
deriving DecidableEq

/-- The kind of step a router command performs. -/
inductive StepKind where
  | wrap
  | exchange
  | unwrap
deriving DecidableEq, BEq

/-- The kind of a router command, forgetting its numeric arguments. -/
def RouterCommand.kind : RouterCommand → StepKind
  | .wrap_eth _ => .wrap
  | .v2_swap_exact_in _ _ => .exchange
  | .unwrap_weth _ => .unwrap

/-- Calldata of a submitted transaction: a chained router command list for a
swap, or an ERC-20 `approve(spender, amount)` call for an approval. -/
inductive CallData where
  | router (cmds : List RouterCommand)
  | erc20_approve (amount : ℕ)
deriving DecidableEq

/-- Transaction parameters assembled by the services before signing
(the fields of the Python `tx_params` dict that the claims talk about). -/
structure TxParams where
  gas : ℕ
  maxPriorityFeePerGas : ℤ
  maxFeePerGas : ℤ
  value : ℤ
  nonce : ℕ
  data : CallData
deriving DecidableEq

/-- An externally visible I/O action performed by a service call, in order. -/
inductive Effect where
  | get_balance
  | call_balance_of
  | fetch_rate
  | call_allowance
  | get_transaction_count (b : BlockId)
  | get_gas_price
  | get_max_priority_fee
  | send_raw_transaction (tx : TxParams)
  | wait_for_receipt
deriving DecidableEq

/-- Error outcome of a service call.  In the source every raised exception is
caught and re-surfaced as a `BlockchainError`; the constructor records which
internal check raised: the two explicit `ValueError` validations, the ABI
encoder's uint256 range check inside the router codec chain, or a failed
receipt wait. -/
inductive ServiceError where
  | invalidAmount
  | insufficientBalance
  | encodingFailed
  | waitFailed
deriving DecidableEq

/-- The environment a single service call observes: account balances, the
current on-chain USDC allowance of Permit2, the outcome of the live
rate-source fetch (`none` = the fetch raised), the ledger nonce counters per
block identifier, fee-market data, and whether a receipt wait succeeds. -/
structure Env where
  eth_balance : ℚ
  usdc_balance : ℚ
  usdc_decimals : ℕ
  allowance : ℕ
  rateResult : Option ℚ
  nonce : BlockId → ℕ
  gas_price : ℕ
  max_priority_fee : ℕ
  wait_succeeds : Bool

/-- Python `int(x)` applied to a numeric value: truncation toward zero. -/
def pyInt (q : ℚ) : ℤ := q.num.sign * ((q.num.natAbs / q.den : ℕ) : ℤ)

/-- Python `int(x)` of an integer-valued number is that integer. -/
theorem pyInt_intCast (n : ℤ) : pyInt ((n : ℤ) : ℚ) = n := by
  unfold pyInt
  rw [Rat.num_intCast, Rat.den_intCast]
  simp [Int.sign_mul_natAbs, Int.sign_mul_abs]

/-- Embedding of `ETHUSDCSwapService.get_eth_price` and `USDCETHSwapService.get_eth_price`
(eth_usdc.py lines 117-136, usdc_eth.py lines 118-137): tries the live price
fetch and, if it raised, returns the hardcoded fallback `3000.0`.  The result
is a bare number; no staleness marking exists. -/
def get_eth_price (rateResult : Option ℚ) : ℚ :=
  match rateResult with
  | some p => p
  | none => 3000

/-- Embedding of `ETHUSDCSwapService.estimate_usdc_output` (eth_usdc.py lines 138-168):
`estimated_usdc = eth_amount * eth_price`,
`min_usdc_output = estimated_usdc * (1 - slippage)`. -/
def estimate_usdc_output (eth_amount slippage : ℚ) (rateResult : Option ℚ) : ℚ × ℚ :=
  (eth_amount * get_eth_price rateResult,
   eth_amount * get_eth_price rateResult * (1 - slippage))

/-- Embedding of `USDCETHSwapService.estimate_eth_output` (usdc_eth.py lines 139-169):
`estimated_eth = usdc_amount / eth_price`,
`min_eth_output = estimated_eth * (1 - slippage)`. -/
def estimate_eth_output (usdc_amount slippage : ℚ) (rateResult : Option ℚ) : ℚ × ℚ :=
  (usdc_amount / get_eth_price rateResult,
   usdc_amount / get_eth_price rateResult * (1 - slippage))

/-- C1: for input amount > 0 and slippage in [0, 1), both estimators return
(estimated, minimum) with minimum = estimated * (1 - slippage),
minimum ≤ estimated, and both strictly positive whenever the exchange rate
used (`get_eth_price rateResult`) is strictly positive. -/
theorem estimate_output_slippage_invariant (a s : ℚ) (r : Option ℚ)
    (ha : 0 < a) (hs0 : 0 ≤ s) (hs1 : s < 1) (hp : 0 < get_eth_price r) :
    ((estimate_usdc_output a s r).2 = (estimate_usdc_output a s r).1 * (1 - s)
      ∧ (estimate_usdc_output a s r).2 ≤ (estimate_usdc_output a s r).1
      ∧ 0 < (estimate_usdc_output a s r).1
      ∧ 0 < (estimate_usdc_output a s r).2)
    ∧ ((estimate_eth_output a s r).2 = (estimate_eth_output a s r).1 * (1 - s)
      ∧ (estimate_eth_output a s r).2 ≤ (estimate_eth_output a s r).1
      ∧ 0 < (estimate_eth_output a s r).1
      ∧ 0 < (estimate_eth_output a s r).2) := by
  have hmul : 0 < a * get_eth_price r := mul_pos ha hp
  have hdiv : 0 < a / get_eth_price r := div_pos ha hp
  have e1 : (estimate_usdc_output a s r).1 = a * get_eth_price r := rfl
  have e2 : (estimate_usdc_output a s r).2 = a * get_eth_price r * (1 - s) := rfl
  have e3 : (estimate_eth_output a s r).1 = a / get_eth_price r := rfl
  have e4 : (estimate_eth_output a s r).2 = a / get_eth_price r * (1 - s) := rfl
  constructor
  · refine ⟨by rw [e1, e2], ?_, ?_, ?_⟩
    · rw [e1, e2]
      nlinarith
    · rw [e1]
      exact hmul
    · rw [e2]
      nlinarith
  · refine ⟨by rw [e3, e4], ?_, ?_, ?_⟩
    · rw [e3, e4]
      nlinarith
    · rw [e3]
      exact hdiv
    · rw [e4]
      nlinarith

/-- Witness for C1 at amount 1, slippage 1/2, live rate 2. -/
theorem estimate_output_slippage_invariant_witness :
    (estimate_usdc_output 1 (1/2) (some 2)).2 ≤ (estimate_usdc_output 1 (1/2) (some 2)).1
      ∧ 0 < (estimate_eth_output 1 (1/2) (some 2)).2 :=
  ⟨(estimate_output_slippage_invariant 1 (1/2) (some 2) (by norm_num) (by norm_num)
      (by norm_num) (by norm_num [get_eth_price])).1.2.1,
   (estimate_output_slippage_invariant 1 (1/2) (some 2) (by norm_num) (by norm_num)
      (by norm_num) (by norm_num [get_eth_price])).2.2.2.2⟩

/-- The maximum uint256 value `2**256 - 1`, the allowance the approval
requests (`permit2_allowance_needed` in the source). -/
def max_uint256 : ℕ := 2 ^ 256 - 1

/-- Number of raw transactions submitted along an effect trace. -/
def countSubmissions (t : List Effect) : ℕ :=
  t.countP (fun e =>
    match e with
    | .send_raw_transaction _ => true
    | _ => false)

/-- The block identifiers of the ledger transaction-count queries along an
effect trace, in order. -/
def nonceBlockIds (t : List Effect) : List BlockId :=
  t.filterMap (fun e =>
    match e with
    | .get_transaction_count b => some b
    | _ => none)

/-- Embedding of `USDCETHSwapService.ensure_permit2_approval` (usdc_eth.py lines 171-223):
reads the current on-chain allowance; if it is at least `2**256 - 1` returns
the empty string, otherwise builds and submits an ERC-20 approve for the
maximum allowance using the pending-inclusive nonce and waits for its
receipt.  The decision depends only on the current on-chain allowance; the
service keeps no record of pending approvals.  The agent-level copy
(src/src/agents/swap/usdc_eth.py lines 129-178) behaves identically. -/
def ensure_permit2_approval (env : Env) : Except ServiceError String × List Effect :=
  let permit2_allowance_needed := max_uint256
  let current_allowance := env.allowance
  if permit2_allowance_needed ≤ current_allowance then
    (.ok "", [.call_allowance])
  else
    let nonce := env.nonce .pending
    let approve_tx : TxParams :=
      { gas := 100000
        maxPriorityFeePerGas := (env.max_priority_fee : ℤ) * 2
        maxFeePerGas := (env.gas_price : ℤ) * 3
        value := 0
        nonce := nonce
        data := .erc20_approve permit2_allowance_needed }
    if env.wait_succeeds then
      (.ok ("0x" ++ toString nonce),
       [.call_allowance, .get_transaction_count .pending, .get_max_priority_fee,
        .get_gas_price, .send_raw_transaction approve_tx, .wait_for_receipt])
    else
      (.error .waitFailed,
       [.call_allowance, .get_transaction_count .pending, .get_max_priority_fee,
        .get_gas_price, .send_raw_transaction approve_tx, .wait_for_receipt])

/-- The router call chain encoded for the ETH to USDC swap
(eth_usdc.py lines 220-234): `wrap_eth` chained before `v2_swap_exact_in`. -/
def eth_usdc_encoded_input (amount_in_wei min_amount_out : ℤ) : List RouterCommand :=
  [.wrap_eth amount_in_wei, .v2_swap_exact_in amount_in_wei min_amount_out]

/-- The router call chain encoded for the USDC to ETH swap
(usdc_eth.py lines 288-302): `v2_swap_exact_in` chained before
`unwrap_weth(0)`. -/
def usdc_eth_encoded_input (amount_in min_amount_out : ℤ) : List RouterCommand :=
  [.v2_swap_exact_in amount_in min_amount_out, .unwrap_weth 0]

/-- Whether an integer fits the ABI `uint256` type.  The router codec's
chain builder ABI-encodes the amounts handed to `wrap_eth`,
`v2_swap_exact_in` and `unwrap_weth` as `uint256` and raises on any value
outside this range (in particular on a negative minimum output), so an
out-of-range amount aborts the swap at encoding time, before the nonce
query and before any submission. -/
def fitsUint256 (x : ℤ) : Bool := decide (0 ≤ x) && decide (x < ((2 ^ 256 : ℕ) : ℤ))

/-- Result returned by `swap_eth_to_usdc`: transaction hash, estimated USDC
(recovered as `min_usdc_output / (1 - slippage)`), and minimum USDC output. -/
structure EthSwapResult where
  transaction_hash : String
  estimated_usdc : ℚ
  min_usdc_output : ℚ
deriving DecidableEq

/-- Embedding of `ETHUSDCSwapService.swap_eth_to_usdc` (eth_usdc.py lines 170-277):
validates `eth_amount > 0`, checks the ETH balance, estimates the output,
encodes wrap-then-swap calldata (the ABI encoding raises — surfaced as
`encodingFailed` — when an encoded amount does not fit uint256, e.g. the
negative minimum output produced by slippage above 1), then takes the nonce
from the DEFAULT (confirmed-only, `latest`) transaction count — the source
calls `get_transaction_count(address)` with no block identifier — reads fee
data, and submits.  The paired effect trace records the I/O in source
order. -/
def swap_eth_to_usdc (env : Env) (eth_amount slippage : ℚ)
    (gas_limit : ℕ) (priority_fee_multiplier : ℚ) :
    Except ServiceError EthSwapResult × List Effect :=
  if eth_amount ≤ 0 then
    (.error .invalidAmount, [])
  else if env.eth_balance < eth_amount then
    (.error .insufficientBalance, [.get_balance])
  else
    let amount_in_wei := pyInt (eth_amount * ((10 ^ 18 : ℕ) : ℚ))
    let min_usdc_output := (estimate_usdc_output eth_amount slippage env.rateResult).2
    let min_amount_out := pyInt (min_usdc_output * ((10 ^ env.usdc_decimals : ℕ) : ℚ))
    if fitsUint256 amount_in_wei && fitsUint256 min_amount_out then
      let nonce := env.nonce .latest
      let max_priority_fee := pyInt ((env.max_priority_fee : ℚ) * priority_fee_multiplier)
      let max_fee := (env.gas_price : ℤ) * 2
      let tx : TxParams :=
        { gas := gas_limit
          maxPriorityFeePerGas := max_priority_fee
          maxFeePerGas := max_fee
          value := amount_in_wei
          nonce := nonce
          data := .router (eth_usdc_encoded_input amount_in_wei min_amount_out) }
      (.ok { transaction_hash := "0x" ++ toString nonce
             estimated_usdc := min_usdc_output / (1 - slippage)
             min_usdc_output := min_usdc_output },
       [.get_balance, .fetch_rate, .get_transaction_count .latest,
        .get_gas_price, .get_max_priority_fee, .send_raw_transaction tx])
    else
      (.error .encodingFailed, [.get_balance, .fetch_rate])

/-- Result returned by `swap_usdc_to_eth`: transaction hash, approval hash
(empty when no approval was needed), estimated ETH, and minimum ETH output. -/
structure UsdcSwapResult where
  transaction_hash : String
  approval_hash : String
  estimated_eth : ℚ
  min_eth_output : ℚ
deriving DecidableEq

/-- Embedding of `USDCETHSwapService.swap_usdc_to_eth` (usdc_eth.py lines 225-346):
validates `usdc_amount > 0`, checks the USDC balance, runs
`ensure_permit2_approval` (waiting again on its transaction when one was
submitted and `wait_for_approval` is set), estimates the output, encodes
swap-then-unwrap calldata (the ABI encoding raises — surfaced as
`encodingFailed` — when an encoded amount does not fit uint256), then takes
the nonce from the PENDING-inclusive transaction count, reads fee data, and
submits. -/
def swap_usdc_to_eth (env : Env) (usdc_amount slippage : ℚ)
    (gas_limit : ℕ) (priority_fee_multiplier : ℚ) (wait_for_approval : Bool) :
    Except ServiceError UsdcSwapResult × List Effect :=
  if usdc_amount ≤ 0 then
    (.error .invalidAmount, [])
  else if env.usdc_balance < usdc_amount then
    (.error .insufficientBalance, [.call_balance_of])
  else
    let amount_in_usdc_units := pyInt (usdc_amount * ((10 ^ env.usdc_decimals : ℕ) : ℚ))
    let approval := ensure_permit2_approval env
    match approval.1 with
    | .error e => (.error e, .call_balance_of :: approval.2)
    | .ok approval_tx =>
      let wait_trace : List Effect :=
        if approval_tx ≠ "" ∧ wait_for_approval = true then [.wait_for_receipt] else []
      let min_eth_output := (estimate_eth_output usdc_amount slippage env.rateResult).2
      let min_amount_out := pyInt (min_eth_output * ((10 ^ 18 : ℕ) : ℚ))
      if fitsUint256 amount_in_usdc_units && fitsUint256 min_amount_out then
        let nonce := env.nonce .pending
        let max_priority_fee := pyInt ((env.max_priority_fee : ℚ) * priority_fee_multiplier)
        let max_fee := (env.gas_price : ℤ) * 2
        let tx : TxParams :=
          { gas := gas_limit
            maxPriorityFeePerGas := max_priority_fee
            maxFeePerGas := max_fee
            value := 0
            nonce := nonce
            data := .router (usdc_eth_encoded_input amount_in_usdc_units min_amount_out) }
        (.ok { transaction_hash := "0x" ++ toString nonce
               approval_hash := approval_tx
               estimated_eth := min_eth_output / (1 - slippage)
               min_eth_output := min_eth_output },
         .call_balance_of :: approval.2 ++ wait_trace ++
          [.fetch_rate, .get_transaction_count .pending,
           .get_gas_price, .get_max_priority_fee, .send_raw_transaction tx])
      else
        (.error .encodingFailed,
         .call_balance_of :: approval.2 ++ wait_trace ++ [.fetch_rate])

/-- Whether every ledger transaction-count query in a trace uses the given
block identifier. -/
def usesOnlyNonceSource (t : List Effect) (b : BlockId) : Bool :=
  (nonceBlockIds t).all (fun x => x == b)

/-- A representative concrete environment: ample balances, allowance 0,
a live rate of 2500, nonce counters at 7, ordinary fee data. -/
def baseEnv : Env :=
  { eth_balance := 10
    usdc_balance := 1000
    usdc_decimals := 6
    allowance := 0
    rateResult := some 2500
    nonce := fun _ => 7
    gas_price := 100
    max_priority_fee := 10
    wait_succeeds := true }

/-- Environment as seen by a first approval call: allowance 0 (the prior
approval is unconfirmed), pending nonce 5. -/
def approvalEnv : Env := { baseEnv with nonce := fun _ => 5 }

/-- Environment as seen by an immediately following second approval call:
the first approval is still unconfirmed, so the on-chain allowance is still 0
and only the pending-inclusive nonce count has advanced. -/
def approvalEnvPending : Env := { baseEnv with nonce := fun _ => 6 }

/-- Environment whose on-chain allowance is already the maximum uint256. -/
def maxAllowanceEnv : Env := { baseEnv with allowance := 2 ^ 256 - 1 }

/-- A string of the form `0x...` is never the empty string. -/
theorem hex_hash_ne_empty (s : String) : "0x" ++ s ≠ "" := by
  intro h
  have h2 := congrArg String.length h
  simp [String.length_append] at h2
  exact absurd h2.1 (by decide)

/-- C9: `ensure_permit2_approval` returns the empty string with no
submission exactly when the on-chain allowance (a uint256) equals
`2^256 - 1`; for every allowance strictly below that it submits one new
approval transaction and does not return the empty string. -/
theorem ensure_permit2_approval_max_only (env : Env) (_range : env.allowance < 2 ^ 256) :
    (env.allowance = 2 ^ 256 - 1 →
      (ensure_permit2_approval env).1 = .ok ""
        ∧ countSubmissions (ensure_permit2_approval env).2 = 0)
    ∧ (env.allowance < 2 ^ 256 - 1 →
      (ensure_permit2_approval env).1 ≠ .ok ""
        ∧ countSubmissions (ensure_permit2_approval env).2 = 1) := by
  constructor
  · intro heq
    simp only [ensure_permit2_approval, max_uint256]
    rw [if_pos (le_of_eq heq.symm)]
    exact ⟨rfl, rfl⟩
  · intro hlt
    simp only [ensure_permit2_approval, max_uint256]
    rw [if_neg (not_le.mpr hlt)]
    by_cases hw : env.wait_succeeds = true
    · rw [if_pos hw]
      refine ⟨?_, rfl⟩
      intro hc
      exact hex_hash_ne_empty (toString (env.nonce BlockId.pending)) (Except.ok.inj hc)
    · rw [if_neg hw]
      exact ⟨fun hc => Except.noConfusion hc, rfl⟩

/-- Witness for C9 at an environment whose allowance is already maximal. -/
theorem ensure_permit2_approval_max_only_witness :
    (ensure_permit2_approval maxAllowanceEnv).1 = .ok ""
      ∧ countSubmissions (ensure_permit2_approval maxAllowanceEnv).2 = 0 :=
  (ensure_permit2_approval_max_only maxAllowanceEnv
    (by show (2 : ℕ) ^ 256 - 1 < 2 ^ 256; exact Nat.sub_lt (by positivity) one_pos)).1 rfl

/-- C3 counterexample: with the prior approval still unconfirmed (on-chain
allowance still 0, pending nonce advanced from 5 to 6), each of two
immediately successive `ensure_permit2_approval` calls submits an approval
transaction — a second approval IS submitted — and the two calls do not
return the same result. -/
theorem ensure_permit2_approval_duplicate_submission :
    countSubmissions (ensure_permit2_approval approvalEnv).2 = 1
    ∧ countSubmissions (ensure_permit2_approval approvalEnvPending).2 = 1
    ∧ (ensure_permit2_approval approvalEnv).1 = .ok "0x5"
    ∧ (ensure_permit2_approval approvalEnvPending).1 = .ok "0x6"
    ∧ ("0x5" : String) ≠ "0x6" :=
  ⟨rfl, rfl, rfl, rfl, by decide⟩

/-- C3 amended: `ensure_permit2_approval` keeps no record of pending
approvals; its decision depends only on the current on-chain allowance, so
whenever that allowance is below the maximum (as it is while a prior
approval transaction is still unconfirmed) every call submits a fresh
approval transaction. -/
theorem ensure_permit2_approval_no_pending_guard (env : Env)
    (h : env.allowance < 2 ^ 256 - 1) :
    countSubmissions (ensure_permit2_approval env).2 = 1 := by
  simp only [ensure_permit2_approval, max_uint256]
  rw [if_neg (not_le.mpr h)]
  by_cases hw : env.wait_succeeds = true
  · rw [if_pos hw]
    rfl
  · rw [if_neg hw]
    rfl

/-- Witness for the amended C3 at a concrete below-max allowance. -/
theorem ensure_permit2_approval_no_pending_guard_witness :
    countSubmissions (ensure_permit2_approval approvalEnv).2 = 1 :=
  ensure_permit2_approval_no_pending_guard approvalEnv
    (by show (0 : ℕ) < 2 ^ 256 - 1; norm_num)

/-- Splitting `usesOnlyNonceSource` over an appended trace. -/
theorem usesOnlyNonceSource_append (t1 t2 : List Effect) (b : BlockId) :
    usesOnlyNonceSource (t1 ++ t2) b
      = (usesOnlyNonceSource t1 b && usesOnlyNonceSource t2 b) := by
  simp [usesOnlyNonceSource, nonceBlockIds, List.filterMap_append, List.all_append]

/-- A leading balance query contributes no nonce query to a trace. -/
theorem usesOnlyNonceSource_cons_balance (t : List Effect) (b : BlockId) :
    usesOnlyNonceSource (Effect.call_balance_of :: t) b = usesOnlyNonceSource t b := by
  simp [usesOnlyNonceSource, nonceBlockIds]

/-- Every nonce query issued by `ensure_permit2_approval` uses the
pending-inclusive count. -/
theorem ensure_permit2_approval_nonce_pending (env : Env) :
    usesOnlyNonceSource (ensure_permit2_approval env).2 BlockId.pending = true := by
  simp only [ensure_permit2_approval, max_uint256]
  by_cases h : 2 ^ 256 - 1 ≤ env.allowance
  · rw [if_pos h]
    rfl
  · rw [if_neg h]
    by_cases hw : env.wait_succeeds = true
    · rw [if_pos hw]
      rfl
    · rw [if_neg hw]
      rfl

/-- C2 amended: every nonce placed in an ETH to USDC swap transaction comes
from the DEFAULT (confirmed-only, `latest`) transaction count, while every
nonce used on the USDC to ETH path (approval and swap) comes from the
pending-inclusive count. -/
theorem swap_nonce_sources (env : Env) (a s : ℚ) (g : ℕ) (m : ℚ) (w : Bool) :
    usesOnlyNonceSource (swap_eth_to_usdc env a s g m).2 BlockId.latest = true
    ∧ usesOnlyNonceSource (swap_usdc_to_eth env a s g m w).2 BlockId.pending = true := by
  constructor
  · simp only [swap_eth_to_usdc]
    by_cases h1 : a ≤ 0
    · rw [if_pos h1]
      rfl
    · rw [if_neg h1]
      by_cases h2 : env.eth_balance < a
      · rw [if_pos h2]
        rfl
      · rw [if_neg h2]
        split
        · rfl
        · rfl
  · simp only [swap_usdc_to_eth]
    by_cases h1 : a ≤ 0
    · rw [if_pos h1]
      rfl
    · rw [if_neg h1]
      by_cases h2 : env.usdc_balance < a
      · rw [if_pos h2]
        rfl
      · rw [if_neg h2]
        split
        · rw [usesOnlyNonceSource_cons_balance]
          exact ensure_permit2_approval_nonce_pending env
        · split
          · rw [usesOnlyNonceSource_append, usesOnlyNonceSource_append,
              usesOnlyNonceSource_cons_balance, ensure_permit2_approval_nonce_pending env]
            simp only [Bool.true_and]
            rw [Bool.and_eq_true]
            constructor
            · split
              · rfl
              · rfl
            · rfl
          · rw [usesOnlyNonceSource_append, usesOnlyNonceSource_append,
              usesOnlyNonceSource_cons_balance, ensure_permit2_approval_nonce_pending env]
            simp only [Bool.true_and]
            rw [Bool.and_eq_true]
            constructor
            · split
              · rfl
              · rfl
            · rfl

/-- C2 counterexample: at a concrete environment, the ETH to USDC swap takes
its nonce from the confirmed-only (`latest`) transaction count and never
queries the pending-inclusive count, contradicting the claim that both swap
directions use the pending-inclusive count. -/
theorem swap_eth_to_usdc_nonce_not_pending :
    Effect.get_transaction_count BlockId.latest
        ∈ (swap_eth_to_usdc baseEnv 1 (1/100) 500000 (3/2)).2
    ∧ Effect.get_transaction_count BlockId.pending
        ∉ (swap_eth_to_usdc baseEnv 1 (1/100) 500000 (3/2)).2 := by
  have hwei : pyInt ((1 : ℚ) * ((10 ^ 18 : ℕ) : ℚ)) = 1000000000000000000 := by
    rw [show ((1 : ℚ) * ((10 ^ 18 : ℕ) : ℚ)) = ((1000000000000000000 : ℤ) : ℚ) by norm_num]
    exact pyInt_intCast 1000000000000000000
  have hmin : (estimate_usdc_output 1 (1/100) (some 2500)).2 = 2475 := by
    show (1 : ℚ) * get_eth_price (some 2500) * (1 - 1/100) = 2475
    norm_num [get_eth_price]
  have hout : pyInt ((2475 : ℚ) * ((10 ^ 6 : ℕ) : ℚ)) = 2475000000 := by
    rw [show ((2475 : ℚ) * ((10 ^ 6 : ℕ) : ℚ)) = ((2475000000 : ℤ) : ℚ) by norm_num]
    exact pyInt_intCast 2475000000
  simp only [swap_eth_to_usdc, baseEnv]
  rw [if_neg (by norm_num : ¬(1 : ℚ) ≤ 0), if_neg (by norm_num : ¬(10 : ℚ) < 1),
    hmin, hwei, hout,
    if_pos (by decide :
      (fitsUint256 1000000000000000000 && fitsUint256 2475000000) = true)]
  decide

/-- C5 amended: only a non-positive amount is rejected immediately with the
invalid-request check and no I/O performed (empty effect trace); slippage is
never validated up front — for every positive amount, whatever the slippage,
the call's first performed effect is the balance query. -/
theorem swap_validation_amount_only (env : Env) (a s : ℚ) (g : ℕ) (m : ℚ)
    (w : Bool) :
    (a ≤ 0 →
      swap_eth_to_usdc env a s g m = (.error .invalidAmount, [])
      ∧ swap_usdc_to_eth env a s g m w = (.error .invalidAmount, []))
    ∧ (0 < a →
      (swap_eth_to_usdc env a s g m).2.head? = some .get_balance
      ∧ (swap_usdc_to_eth env a s g m w).2.head? = some .call_balance_of) := by
  constructor
  · intro h
    constructor
    · simp only [swap_eth_to_usdc]
      rw [if_pos h]
    · simp only [swap_usdc_to_eth]
      rw [if_pos h]
  · intro h
    have hn : ¬a ≤ 0 := not_le.mpr h
    constructor
    · simp only [swap_eth_to_usdc]
      rw [if_neg hn]
      by_cases h2 : env.eth_balance < a
      · rw [if_pos h2]
        rfl
      · rw [if_neg h2]
        split
        · rfl
        · rfl
    · simp only [swap_usdc_to_eth]
      rw [if_neg hn]
      by_cases h2 : env.usdc_balance < a
      · rw [if_pos h2]
        rfl
      · rw [if_neg h2]
        split
        · rfl
        · split
          · rfl
          · rfl

/-- Witness for the amended C5: rejection with empty trace at amount 0, and
the balance query as first effect at amount 1 with out-of-range slippage
2.0. -/
theorem swap_validation_amount_only_witness :
    swap_eth_to_usdc baseEnv 0 (1/100) 500000 (3/2) = (.error .invalidAmount, [])
    ∧ (swap_eth_to_usdc baseEnv 1 2 500000 (3/2)).2.head? = some Effect.get_balance :=
  ⟨((swap_validation_amount_only baseEnv 0 (1/100) 500000 (3/2) true).1 (by norm_num)).1,
   ((swap_validation_amount_only baseEnv 1 2 500000 (3/2) true).2 (by norm_num)).1⟩

/-- C5 counterexample: out-of-range slippage is not rejected before I/O.
At slippage -1 (negative, outside [0, 10000) basis points) the swap performs
its balance query AND submits a transaction (the minimum output is twice the
estimate); at slippage 2.0 (20000 basis points) the swap still performs the
balance query and the rate fetch, and only then fails — with the ABI
encoder's uint256 range error on the negative minimum output, not with the
invalid-request check. -/
theorem swap_out_of_range_slippage_not_rejected :
    Effect.get_balance ∈ (swap_eth_to_usdc baseEnv 1 (-1) 500000 (3/2)).2
    ∧ countSubmissions (swap_eth_to_usdc baseEnv 1 (-1) 500000 (3/2)).2 = 1
    ∧ (swap_eth_to_usdc baseEnv 1 (-1) 500000 (3/2)).1 ≠ .error .invalidAmount
    ∧ (swap_eth_to_usdc baseEnv 1 2 500000 (3/2)).2
        = [Effect.get_balance, Effect.fetch_rate]
    ∧ (swap_eth_to_usdc baseEnv 1 2 500000 (3/2)).1 = .error .encodingFailed := by
  have hwei : pyInt ((1 : ℚ) * ((10 ^ 18 : ℕ) : ℚ)) = 1000000000000000000 := by
    rw [show ((1 : ℚ) * ((10 ^ 18 : ℕ) : ℚ)) = ((1000000000000000000 : ℤ) : ℚ) by norm_num]
    exact pyInt_intCast 1000000000000000000
  have hmin1 : (estimate_usdc_output 1 (-1) (some 2500)).2 = 5000 := by
    show (1 : ℚ) * get_eth_price (some 2500) * (1 - (-1)) = 5000
    norm_num [get_eth_price]
  have hout1 : pyInt ((5000 : ℚ) * ((10 ^ 6 : ℕ) : ℚ)) = 5000000000 := by
    rw [show ((5000 : ℚ) * ((10 ^ 6 : ℕ) : ℚ)) = ((5000000000 : ℤ) : ℚ) by norm_num]
    exact pyInt_intCast 5000000000
  have hmin2 : (estimate_usdc_output 1 2 (some 2500)).2 = -2500 := by
    show (1 : ℚ) * get_eth_price (some 2500) * (1 - 2) = -2500
    norm_num [get_eth_price]
  have hout2 : pyInt ((-2500 : ℚ) * ((10 ^ 6 : ℕ) : ℚ)) = -2500000000 := by
    rw [show ((-2500 : ℚ) * ((10 ^ 6 : ℕ) : ℚ)) = ((-2500000000 : ℤ) : ℚ) by norm_num]
    exact pyInt_intCast (-2500000000)
  refine ⟨?_, ?_, ?_, ?_, ?_⟩
  · simp only [swap_eth_to_usdc, baseEnv]
    rw [if_neg (by norm_num : ¬(1 : ℚ) ≤ 0), if_neg (by norm_num : ¬(10 : ℚ) < 1),
      hmin1, hwei, hout1,
      if_pos (by decide :
        (fitsUint256 1000000000000000000 && fitsUint256 5000000000) = true)]
    decide
  · simp only [swap_eth_to_usdc, baseEnv]
    rw [if_neg (by norm_num : ¬(1 : ℚ) ≤ 0), if_neg (by norm_num : ¬(10 : ℚ) < 1),
      hmin1, hwei, hout1,
      if_pos (by decide :
        (fitsUint256 1000000000000000000 && fitsUint256 5000000000) = true)]
    rfl
  · simp only [swap_eth_to_usdc, baseEnv]
    rw [if_neg (by norm_num : ¬(1 : ℚ) ≤ 0), if_neg (by norm_num : ¬(10 : ℚ) < 1),
      hmin1, hwei, hout1,
      if_pos (by decide :
        (fitsUint256 1000000000000000000 && fitsUint256 5000000000) = true)]
    intro hc
    exact Except.noConfusion hc
  · simp only [swap_eth_to_usdc, baseEnv]
    rw [if_neg (by norm_num : ¬(1 : ℚ) ≤ 0), if_neg (by norm_num : ¬(10 : ℚ) < 1),
      hmin2, hwei, hout2,
      if_neg (by decide :
        ¬(fitsUint256 1000000000000000000 && fitsUint256 (-2500000000)) = true)]
  · simp only [swap_eth_to_usdc, baseEnv]
    rw [if_neg (by norm_num : ¬(1 : ℚ) ≤ 0), if_neg (by norm_num : ¬(10 : ℚ) < 1),
      hmin2, hwei, hout2,
      if_neg (by decide :
        ¬(fitsUint256 1000000000000000000 && fitsUint256 (-2500000000)) = true)]

/-- C6: in the encoded router call chain, the wrap step comes strictly
before the exchange call when selling ETH for USDC, and the exchange call
comes strictly before the unwrap step when buying ETH with USDC. -/
theorem encoded_input_step_ordering (a m a2 m2 : ℤ) :
    ((eth_usdc_encoded_input a m).map RouterCommand.kind).indexOf StepKind.wrap
      < ((eth_usdc_encoded_input a m).map RouterCommand.kind).indexOf StepKind.exchange
    ∧ ((usdc_eth_encoded_input a2 m2).map RouterCommand.kind).indexOf StepKind.exchange
      < ((usdc_eth_encoded_input a2 m2).map RouterCommand.kind).indexOf StepKind.unwrap := by
  constructor
  · show (0 : ℕ) < 1
    decide
  · show (0 : ℕ) < 1
    decide

/-- C7 counterexample: when the rate source fails the price falls back to
the static 3000, but the resulting quote carries no staleness marking — it
is literally identical to the quote computed from a live rate of 3000, so
the fallback IS used silently. -/
theorem fallback_quote_not_marked_stale :
    get_eth_price none = 3000
    ∧ estimate_usdc_output 1 (1/100) none = estimate_usdc_output 1 (1/100) (some 3000)
    ∧ estimate_eth_output 1 (1/100) none = estimate_eth_output 1 (1/100) (some 3000) :=
  ⟨rfl, rfl, rfl⟩

/-- C7 amended: whenever the rate source fails, the quote is computed from
the static fallback estimate 3000, and the fallback is silent: no stale flag
exists and the quote is indistinguishable from one computed at a live rate
of 3000. -/
theorem fallback_quote_silent (a s : ℚ) :
    get_eth_price none = 3000
    ∧ estimate_usdc_output a s none = estimate_usdc_output a s (some 3000)
    ∧ estimate_eth_output a s none = estimate_eth_output a s (some 3000) :=
  ⟨rfl, rfl, rfl⟩

/-- A Python numeric runtime representation. -/
inductive PyNumericType where
  | int
  | float
  | decimal
deriving DecidableEq

/-- The Python runtime type of each value taking part in the quote and
minimum-output arithmetic, transcribed from the source annotations and
literals: `eth_amount: float` and `slippage: float = 0.01`
(eth_usdc.py line 138), `usdc_amount: float` (usdc_eth.py line 139),
`get_eth_price() -> float` with float fallback literal `3000.0`,
`estimated_usdc = eth_amount * eth_price` (line 157),
`min_usdc_output = estimated_usdc * (1 - slippage)` (line 160),
`estimated_eth = usdc_amount / eth_price` (usdc_eth.py line 158),
`min_eth_output = estimated_eth * (1 - slippage)` (line 161), and the agent
hardcoded estimates `amount * 2500.0` (agents/swap/eth_usdc.py line 144) and
`amount / 2500.0` (agents/swap/usdc_eth.py line 205).  The `Decimal` import
at the top of both service files is unused. -/
def quote_arithmetic_types : List (String × PyNumericType) :=
  [("eth_amount", .float), ("usdc_amount", .float), ("slippage", .float),
   ("eth_price", .float), ("estimated_usdc", .float), ("min_usdc_output", .float),
   ("estimated_eth", .float), ("min_eth_output", .float),
   ("agent_estimated_usdc_amount", .float), ("agent_estimated_eth_amount", .float)]

/-- Whether any step of the quote arithmetic is carried out in binary
floating point. -/
def quote_arithmetic_uses_float : Bool :=
  quote_arithmetic_types.any (fun p => p.2 == PyNumericType.float)

/-- C4 counterexample: the quote arithmetic DOES use binary floating point —
the concrete step `estimated_usdc = eth_amount * eth_price` is computed on
Python floats — refuting the claim that no step uses binary floating
point. -/
theorem quote_arithmetic_float_step :
    quote_arithmetic_uses_float = true
    ∧ ("estimated_usdc", PyNumericType.float) ∈ quote_arithmetic_types := by
  decide

/-- C4 amended: every step of the quote and minimum-output arithmetic is
performed in binary floating point (Python float); no step uses a
fixed-point or rational decimal representation. -/
theorem quote_arithmetic_all_float :
    quote_arithmetic_types.all (fun p => p.2 == PyNumericType.float) = true := by
  decide

/-- A transaction receipt as the services read it: execution status code
(1 = success), inclusion block number, and gas used. -/
structure Receipt where
  status : ℕ
  blockNumber : ℤ
  gasUsed : ℕ
deriving DecidableEq

/-- The status report produced by `get_transaction_status`. -/
structure TxStatusInfo where
  status : String
  confirmations : ℤ
deriving DecidableEq

/-- Embedding of `ETHUSDCSwapService.get_transaction_status` (eth_usdc.py lines 279-316)
and the identical `USDCETHSwapService.get_transaction_status` (usdc_eth.py
lines 348-385): no receipt means pending; with a receipt,
`confirmations = current_block - receipt.blockNumber`; success status (1)
with at least 1 confirmation means confirmed, success with fewer means
pending_confirmation, and any non-success status means failed. -/
def get_transaction_status (receipt : Option Receipt) (current_block : ℤ) : TxStatusInfo :=
  match receipt with
  | none => { status := "pending", confirmations := 0 }
  | some r =>
    let confirmations := current_block - r.blockNumber
    { status :=
        if r.status = 1 then
          (if 1 ≤ confirmations then "confirmed" else "pending_confirmation")
        else "failed"
      confirmations := confirmations }

/-- C8: the status report is "confirmed" exactly when a receipt is present
with success status and confirmation count at least the threshold 1, it is
"failed" exactly when a receipt is present with a non-success status, with
success status but fewer confirmations than the threshold it is
"pending_confirmation", and with no receipt it is "pending". -/
theorem get_transaction_status_cases (r : Receipt) (cb : ℤ) :
    ((get_transaction_status (some r) cb).status = "confirmed"
      ↔ r.status = 1 ∧ 1 ≤ cb - r.blockNumber)
    ∧ ((get_transaction_status (some r) cb).status = "failed" ↔ r.status ≠ 1)
    ∧ ((get_transaction_status (some r) cb).status = "pending_confirmation"
      ↔ r.status = 1 ∧ cb - r.blockNumber < 1)
    ∧ (get_transaction_status none cb).status = "pending" := by
  have hsome : (get_transaction_status (some r) cb).status
      = if r.status = 1 then
          (if 1 ≤ cb - r.blockNumber then "confirmed" else "pending_confirmation")
        else "failed" := rfl
  have hnone : (get_transaction_status none cb).status = "pending" := rfl
  rw [hnone]
  refine ⟨?_, ?_, ?_, rfl⟩ <;> rw [hsome] <;> split_ifs with h1 h2 <;>
    simp_all

/-- Names bound at module scope in src/src/utils/errors.py: the imported
typing names and the classes and function the module itself defines.
`CryptoAgentError` is not among them and is defined nowhere else in the
repository. -/
def errors_module_names : List String :=
  ["Optional", "Any", "Dict",
   "BaseError", "APIError", "MessageHandlingError", "ConfigurationError",
   "BlockchainError", "CommunicationError", "DataValidationError",
   "SwapError", "LLMError", "AuthenticationError", "format_error"]

/-- A Python exception value as `format_error` receives it. -/
structure PyExc where
  className : String
  message : String
  details : List (String × String)
deriving DecidableEq

/-- A Python runtime error raised while executing a function body. -/
inductive PyRuntimeError where
  | nameError (missing : String)
deriving DecidableEq

/-- The standardized error dictionary `format_error` is documented to
return. -/
structure ErrorDict where
  error : String
  message : String
  details : List (String × String)
deriving DecidableEq

/-- Embedding of `format_error` (errors.py lines 67-90): evaluates
`isinstance(error, CryptoAgentError)`, which first resolves the name
`CryptoAgentError` in the module scope; if the name is unbound the lookup
raises `NameError` before either branch can build the result dictionary.
The boolean argument stands for the isinstance outcome that would be used
were the name resolvable. -/
def format_error (e : PyExc) (isCryptoAgentInstance : Bool) :
    Except PyRuntimeError ErrorDict :=
  if "CryptoAgentError" ∈ errors_module_names then
    if isCryptoAgentInstance then
      .ok { error := e.className, message := e.message, details := e.details }
    else
      .ok { error := e.className, message := e.message, details := [] }
  else
    .error (.nameError "CryptoAgentError")

/-- C10: for every exception passed to it, `format_error` raises a
`NameError` on the undefined name `CryptoAgentError` and never reaches its
return statement. -/
theorem format_error_always_name_error (e : PyExc) (b : Bool) :
    format_error e b = .error (.nameError "CryptoAgentError") := by
  have hmem : ("CryptoAgentError" ∈ errors_module_names) = False := by
    simp [errors_module_names]
  simp only [format_error, hmem]
  rw [if_neg (fun hc => hc.elim)]

end CryptoHedge
